import Mathlib

/-!
# HyperCog enrichment pipeline — verification development

Shallow embedding of the HyperCog MCP enrichment pipeline
(`hypercog_mcp`): the orchestrator's branching flow, the capability
(sub-agent) batch search loops, the evaluator's response parsing, the
gap synthesis of the deep-thinking agent, the optimizer's parse
fallback, and the server's input validation.

External collaborators (HTTP language-model calls, Perplexity, cognee,
the filesystem) are modelled as oracle functions returning
`Except String α`: an `Except.error e` models the Python call raising
an exception with description `e`.  Python dictionaries produced by
`json.loads` are modelled by an explicit JSON value type `JVal`;
Python floats carried in verdicts are modelled by rationals.
-/

namespace HyperCog

/-- JSON values as produced by `json.loads` (numbers as rationals). -/
inductive JVal where
  | jnull : JVal
  | jbool (b : Bool) : JVal
  | jnum (q : ℚ) : JVal
  | jstr (s : String) : JVal
  | jarr (xs : List JVal) : JVal
  | jobj (fields : List (String × JVal)) : JVal
deriving Repr

/-- A single per-query record produced by a capability agent's batch
loop: the Python dicts `{query, result/error, source, success, [citations]}`.
`outcome = .ok r` models the `success=True` record carrying `result = r`;
`outcome = .error e` models the `success=False` record carrying `error = e`. -/
structure CollabResult where
  query : String
  source : String
  outcome : Except String String
  citations : List String
deriving Repr

/-- The `success` field of a collaborator result record. -/
def CollabResult.success (r : CollabResult) : Bool :=
  match r.outcome with
  | .ok _ => true
  | .error _ => false

/-- Answer returned by one `PerplexityAgent.search` call:
`{"answer": ..., "citations": ...}`. -/
structure PerplexityAnswer where
  answer : String
  citations : List String
deriving Repr

/-- Model of `PerplexitySearchAgent.search` (src/hypercog_mcp/sub_agents/perplexity/agent.py,
lines 121–155): loop over the queries, `try` the single-query search,
append a `success=True` record on success and a `success=False` record
carrying the error on exception.  `searchOne` is the underlying
single-query HTTP call (an oracle). -/
def perplexitySearchBatch (searchOne : String → Except String PerplexityAnswer)
    (queries : List String) : List CollabResult :=
  queries.map fun q =>
    match searchOne q with
    | .ok a => { query := q, source := "perplexity", outcome := .ok a.answer,
                 citations := a.citations }
    | .error e => { query := q, source := "perplexity", outcome := .error e,
                    citations := [] }

/-- Model of `CogneeKGAgent.search` (src/hypercog_mcp/sub_agents/cognee_kg/agent.py,
lines 11–40): same per-query try/except loop over the cognee
`GRAPH_COMPLETION` search oracle. -/
def cogneeKGSearchBatch (searchOne : String → Except String String)
    (queries : List String) : List CollabResult :=
  queries.map fun q =>
    match searchOne q with
    | .ok r => { query := q, source := "cognee_kg", outcome := .ok r, citations := [] }
    | .error e => { query := q, source := "cognee_kg", outcome := .error e,
                    citations := [] }

/-! ## Language-model output and the evaluator's response parsing -/

/-- The outcome of `json.loads` on the text returned by a
language-model call: either the text is not valid JSON
(`json.loads` raises `JSONDecodeError`), or it parses to a JSON value. -/
inductive LLMOutput where
  | malformed (raw : String) : LLMOutput
  | parsed (v : JVal) : LLMOutput

/-- Python dictionary lookup on a parsed JSON object,
`result.get(key)` / `key in result`. -/
def jlookup (fields : List (String × JVal)) (key : String) : Option JVal :=
  match fields with
  | [] => none
  | (k, v) :: rest => if k = key then some v else jlookup rest key

/-- Statement `if "sufficient" not in result: result["sufficient"] = False`
(evaluator.py line 427–428). -/
def defaultSufficient (r : List (String × JVal)) : List (String × JVal) :=
  if (jlookup r "sufficient").isNone then r ++ [("sufficient", .jbool false)] else r

/-- Statement `if "confidence" not in result: result["confidence"] = 0.3`
(evaluator.py line 429–430). -/
def defaultConfidence (r : List (String × JVal)) : List (String × JVal) :=
  if (jlookup r "confidence").isNone then r ++ [("confidence", .jnum (3/10))] else r

/-- Statement `if "reasoning" not in result and "reasons" in result: ...`
(evaluator.py line 431–432). -/
def aliasReasoning (r : List (String × JVal)) : List (String × JVal) :=
  if (jlookup r "reasoning").isNone then
    match jlookup r "reasons" with
    | some v => r ++ [("reasoning", v)]
    | none => r
  else r

/-- Statement `if "missing_elements" not in result and "missing_areas" in result: ...`
(evaluator.py line 433–434). -/
def aliasMissingElements (r : List (String × JVal)) : List (String × JVal) :=
  if (jlookup r "missing_elements").isNone then
    match jlookup r "missing_areas" with
    | some v => r ++ [("missing_elements", v)]
    | none => r
  else r

/-- The field-defaulting body of `_parse_evaluation_response`
(src/hypercog_mcp/agents/evaluator.py, lines 426–436): the four
sequential `if` statements, applied in source order to the parsed
dict. -/
def applyEvalDefaults (r : List (String × JVal)) : List (String × JVal) :=
  aliasMissingElements (aliasReasoning (defaultConfidence (defaultSufficient r)))

/-- The evaluator's safe-default verdict built in the
`except json.JSONDecodeError` branch of `_parse_evaluation_response`. -/
def evalParseFailureDefault : List (String × JVal) :=
  [("sufficient", .jbool false),
   ("confidence", .jnum (3/10)),
   ("reasoning", .jstr "Failed to parse evaluation response"),
   ("missing_elements", .jarr [.jstr "Evaluation parsing error"]),
   ("context_size_assessment", .jstr "unknown")]

/-- Model of `EvaluatorAgent._parse_evaluation_response`
(src/hypercog_mcp/agents/evaluator.py, lines 421–446).
`json.loads` failure is caught and mapped to the safe-default verdict.
A response parsing to a JSON *object* gets missing fields defaulted.
A response parsing to any non-object JSON value falls outside the
`except json.JSONDecodeError` handler: `result["sufficient"] = False`
on a list/str/int/None raises a `TypeError`, modelled as `.error`. -/
def parseEvaluationResponse : LLMOutput → Except String (List (String × JVal))
  | .malformed _ => .ok evalParseFailureDefault
  | .parsed (.jobj fields) => .ok (applyEvalDefaults fields)
  | .parsed _ => .error "TypeError"

/-- Oracles consumed by one `EvaluatorAgent.evaluate` call: the parsed
static-assessment chat completion, availability of the lazily
initialized Perplexity agent, the outcome of the validation fan-out
(`.error` models `_validate_with_perplexity` raising), and the parsed
synthesis chat completion. -/
structure EvaluateEnv where
  staticResponse : LLMOutput
  perplexityAvailable : Bool
  validationOutcome : Except String Unit
  synthesisResponse : LLMOutput

/-- Model of `EvaluatorAgent.evaluate` (src/hypercog_mcp/agents/evaluator.py,
lines 48–109): static assessment, then — only when Perplexity
validation is enabled and the agent is available — validation plus
synthesis inside a `try` whose `except Exception` falls back to the
static assessment.  A failure of the *static* parse itself is outside
any handler and propagates. -/
def evaluate (env : EvaluateEnv) (enablePerplexity : Bool) :
    Except String (List (String × JVal)) :=
  match parseEvaluationResponse env.staticResponse with
  | .error e => .error e
  | .ok initial =>
    if enablePerplexity && env.perplexityAvailable then
      match env.validationOutcome with
      | .error _ => .ok initial
      | .ok _ =>
        match parseEvaluationResponse env.synthesisResponse with
        | .error _ => .ok initial
        | .ok enhanced => .ok enhanced
    else .ok initial

/-! ## Deep-thinking gap synthesis -/

/-- Test that `needle` occurs as a contiguous substring of `hay`
(Python's `needle in hay` on strings), on character lists. -/
def charsContain (hay needle : List Char) : Bool :=
  match hay with
  | [] => needle.isEmpty
  | _ :: tl => needle.isPrefixOf hay || charsContain tl needle

/-- Python's `g.lower()` as a character list (`Char.toLower` per
character — the keyword tables involved are pure ASCII, where this
agrees with Python's `str.lower`). -/
def lowerChars (s : String) : List Char :=
  s.data.map Char.toLower

/-- Keywords marking a gap as critical (`_synthesize_gaps`). -/
def criticalKeywords : List String := ["must", "required", "critical", "essential"]

/-- Keywords marking a gap as important (`_synthesize_gaps`). -/
def importantKeywords : List String := ["should", "important", "necessary"]

/-- Python `any(word in g.lower() for word in criticalKeywords)`. -/
def critMatch (g : String) : Bool :=
  criticalKeywords.any fun w => charsContain (lowerChars g) w.data

/-- Python `any(word in g.lower() for word in importantKeywords)`. -/
def impMatch (g : String) : Bool :=
  importantKeywords.any fun w => charsContain (lowerChars g) w.data

/-- The classified gap lists returned by `_synthesize_gaps`. -/
structure GapClasses where
  critical : List String
  important : List String
  supplementary : List String
deriving Repr

/-- Model of `DeepThinkingAgent._synthesize_gaps`
(src/hypercog_mcp/agents/deep_thinking.py, lines 135–158): concatenate
`gaps_identified` over all iterations, deduplicate by exact string
equality (`list(set(all_gaps))`, modelled by `List.dedup` — the claims
below are order-independent, as Python's set iteration order is
unspecified), then partition: critical-keyword gaps first, then
important-keyword gaps not already critical, remainder supplementary. -/
def synthesizeGaps (iterationGaps : List (List String)) : GapClasses :=
  let all_gaps := iterationGaps.flatMap id
  let unique_gaps := all_gaps.dedup
  let critical := unique_gaps.filter fun g => critMatch g
  let important := unique_gaps.filter fun g => !critical.contains g && impMatch g
  let supplementary := unique_gaps.filter fun g =>
    !critical.contains g && !important.contains g
  { critical := critical, important := important, supplementary := supplementary }

/-! ## Optimizer -/

/-- Model of `OptimizerAgent.execute` (src/hypercog_mcp/agents/optimizer.py,
lines 16–71), with the input dict's `task` and `context_to_optimize`
entries passed explicitly and the chat completion's parsed output as
`resp`.  `json.loads` failure is caught and replaced by the fallback
result; a parsed JSON object is returned as-is; a parsed non-object
raises `AttributeError` at `result.get("token_count", {})`
(line 68), which no handler catches. -/
def optimizerExecute (task context_to_optimize : String) :
    LLMOutput → Except String (List (String × JVal))
  | .malformed _ =>
    .ok [("optimized_context", .jobj
            [("zone_1_task", .jstr task),
             ("zone_2_core", .jstr context_to_optimize),
             ("zone_3_supporting", .jstr ""),
             ("zone_4_gotchas", .jstr "")]),
         ("token_count", .jobj
            [("original", .jnum 0), ("optimized", .jnum 0),
             ("reduction_percent", .jnum 0)]),
         ("optimizations_applied", .jarr [])]
  | .parsed (.jobj fields) => .ok fields
  | .parsed _ => .error "AttributeError"

/-! ## Orchestrator: fan-out dispatch, subtask fold, branching flow -/

/-- The `search_queries` dict built by
`DeepThinkingAgent._craft_search_queries`: one ordered query list per
sub-agent name. -/
structure SearchQueries where
  perplexity : List String
  file_search : List String
  cognee_kg : List String
  cognee_vector : List String

/-- The four sub-agent batch-search calls as dispatched by the
orchestrator; `.error` models the whole coroutine raising. -/
structure AgentSet where
  perplexity : List String → Except String (List CollabResult)
  file_search : List String → Except String (List CollabResult)
  cognee_kg : List String → Except String (List CollabResult)
  cognee_vector : List String → Except String (List CollabResult)

/-- The per-agent recovery in `_dispatch_sub_agents`
(src/hypercog_mcp/orchestrator.py, lines 216–224):
`asyncio.gather(..., return_exceptions=True)` plus the
`isinstance(completed[i], Exception)` check bind a failed agent to the
empty result list and a succeeded agent to its batch. -/
def recoverBatch : Except String (List CollabResult) → List CollabResult
  | .ok rs => rs
  | .error _ => []

/-- Model of `HyperCogOrchestrator._dispatch_sub_agents`
(src/hypercog_mcp/orchestrator.py, lines 182–226): for each of the four
agent names, in this fixed order, dispatch its batch only when its
query list is truthy (non-empty); join on all of them and map each
agent name to its recovered results. -/
def dispatchSubAgents (ag : AgentSet) (q : SearchQueries) :
    List (String × List CollabResult) :=
  (if q.perplexity.isEmpty then [] else
    [("perplexity", recoverBatch (ag.perplexity q.perplexity))]) ++
  (if q.file_search.isEmpty then [] else
    [("file_search", recoverBatch (ag.file_search q.file_search))]) ++
  (if q.cognee_kg.isEmpty then [] else
    [("cognee_kg", recoverBatch (ag.cognee_kg q.cognee_kg))]) ++
  (if q.cognee_vector.isEmpty then [] else
    [("cognee_vector", recoverBatch (ag.cognee_vector q.cognee_vector))])

/-- A subtask dict from the scrum agent's breakdown, restricted to the
fields `_execute_subtasks` reads. -/
structure Subtask where
  id : String
  name : String
  description : String
  context : String

/-- The optimized-context artifact, abstract at orchestrator level
(the orchestrator treats `optimizer.execute`'s return value as
opaque). -/
structure Optimized where
  payload : List (String × JVal)

/-- Outcome of one subtask in `_execute_subtasks`: the `try` branch
appends a `status="ready_for_execution"` record with the optimized
context, the `except` branch a `status="failed"` record with the
error. -/
inductive SubtaskOutcome where
  | ready (optimized : Optimized) : SubtaskOutcome
  | failed (error : String) : SubtaskOutcome

/-- The `status` field of a subtask result record. -/
def SubtaskOutcome.status : SubtaskOutcome → String
  | .ready _ => "ready_for_execution"
  | .failed _ => "failed"

/-- One element of the list returned by `_execute_subtasks`. -/
structure SubtaskResult where
  subtask_id : String
  subtask_name : String
  outcome : SubtaskOutcome

/-- Model of `HyperCogOrchestrator._execute_subtasks`
(src/hypercog_mcp/orchestrator.py, lines 233–275): a sequential fold
over the subtask list; each subtask is optimized under the composite
session id `session_id + "_subtask_" + id`, a per-subtask exception is
captured as a `status="failed"` record, and the loop always continues
to the next subtask. -/
def executeSubtasks (optimize : String → String → String → Except String Optimized)
    (subtasks : List Subtask) (session_id : String) : List SubtaskResult :=
  subtasks.map fun st =>
    match optimize st.description st.context (session_id ++ "_subtask_" ++ st.id) with
    | .ok o => { subtask_id := st.id, subtask_name := st.name, outcome := .ready o }
    | .error e => { subtask_id := st.id, subtask_name := st.name, outcome := .failed e }

/-- Payload of a pipeline result: either a single optimized context
(`optimized_context` key) or a list of per-subtask results
(`subtask_results` key). -/
inductive Payload where
  | optimizedContext (o : Optimized) : Payload
  | subtaskResults (rs : List SubtaskResult) : Payload

/-- The dict returned by `_enrich_internal`. -/
structure PipelineResult where
  status : String
  session_id : String
  payload : Payload
  path : String

/-- Result of `ConsolidatorAgent.execute` as read by the orchestrator:
`enriched_context` plus the optional `estimated_tokens` field
(`consolidation.get("estimated_tokens", ...)`). -/
structure Consolidation where
  enriched_context : String
  estimated_tokens : Option Nat

/-- Oracles and configuration consumed by one `_enrich_internal` call.
Each `Except`-valued field models an awaited collaborator call that may
raise; `countTokens` is `TokenCounter.count_tokens` (total). -/
structure OrchestratorEnv where
  maxTokensPerTask : Nat
  countTokens : String → Nat
  /-- Oracle for `context_extractor.execute`: yields `(session_id, session_context)`. -/
  extract : Except String (String × String)
  /-- Oracle for `_run_evaluator_with_perplexity`: the truthiness of the verdict's
  `sufficient` entry, which is all `_enrich_internal` branches on. -/
  evaluateSufficient : Except String Bool
  /-- Oracle for `optimizer.execute` on `(task, context_to_optimize, session_id)`. -/
  optimize : String → String → String → Except String Optimized
  /-- Oracle for `scrum_agent.execute` on `(task, context, reason)`: the breakdown's
  `subtasks` list. -/
  scrum : String → String → String → Except String (List Subtask)
  /-- Oracle for `deep_thinker.execute`: the `search_queries` of the thinking result. -/
  deepThink : String → String → Except String SearchQueries
  agents : AgentSet
  /-- Oracle for `consolidator.execute` on `(task, original_context, sub_agent_results)`. -/
  consolidate : String → String → List (String × List CollabResult) →
    Except String Consolidation

/-- Model of `HyperCogOrchestrator._enrich_internal`
(src/hypercog_mcp/orchestrator.py, lines 75–180): extract, evaluate,
then branch on sufficiency and on the token estimate against
`max_tokens_per_task`, producing one of the four path-tagged results;
un-recovered collaborator failures propagate. -/
def enrichInternal (env : OrchestratorEnv) (task : String) :
    Except String PipelineResult := do
  let (session_id, current_context) ← env.extract
  let sufficient ← env.evaluateSufficient
  if sufficient then
    let estimated_tokens := env.countTokens current_context
    if estimated_tokens ≤ env.maxTokensPerTask then
      let optimized ← env.optimize task current_context session_id
      pure { status := "ready_for_execution", session_id := session_id,
             payload := .optimizedContext optimized, path := "sufficient_manageable" }
    else
      let subtasks ← env.scrum task current_context
        "Context sufficient but too large for single execution"
      let subtask_results := executeSubtasks env.optimize subtasks session_id
      pure { status := "subtasks_completed", session_id := session_id,
             payload := .subtaskResults subtask_results,
             path := "sufficient_too_large_scrum" }
  else
    let search_queries ← env.deepThink task current_context
    let sub_agent_results := dispatchSubAgents env.agents search_queries
    let consolidation ← env.consolidate task current_context sub_agent_results
    let enriched_context := consolidation.enriched_context
    let estimated_tokens :=
      consolidation.estimated_tokens.getD (env.countTokens enriched_context)
    if estimated_tokens ≤ env.maxTokensPerTask then
      let optimized ← env.optimize task enriched_context session_id
      pure { status := "ready_for_execution", session_id := session_id,
             payload := .optimizedContext optimized, path := "enriched_manageable" }
    else
      let subtasks ← env.scrum task enriched_context
        "Enriched context too large for single execution"
      let subtask_results := executeSubtasks env.optimize subtasks session_id
      pure { status := "subtasks_completed", session_id := session_id,
             payload := .subtaskResults subtask_results,
             path := "enriched_too_large_scrum" }

/-! ## Pipeline construction under the process environment -/

/-- The slice of the process environment the sub-agent constructors
read; `none` models an unset variable, `some ""` an empty one (both
falsy in the Python `if not self.api_key` check). -/
structure ProcEnv where
  PERPLEXITY_API_KEY : Option String
  GOOGLE_API_KEY : Option String

/-- Truthiness of `os.getenv(...)`. -/
def envTruthy : Option String → Bool
  | none => false
  | some s => !s.isEmpty

/-- Model of `PerplexityAgent.__init__` / `PerplexitySearchAgent.__init__`
(src/hypercog_mcp/sub_agents/perplexity/agent.py, lines 10–17 and
116–119): read `PERPLEXITY_API_KEY` and raise `ValueError` when it is
falsy. -/
def perplexitySearchAgentInit (env : ProcEnv) : Except String Unit :=
  if envTruthy env.PERPLEXITY_API_KEY then .ok ()
  else .error "PERPLEXITY_API_KEY not found in environment"

/-- Model of `FileSearchAgent.__init__`
(src/hypercog_mcp/sub_agents/file_search/agent.py, lines 9–15): read
`GOOGLE_API_KEY` and raise `ValueError` when it is falsy. -/
def fileSearchAgentInit (env : ProcEnv) : Except String Unit :=
  if envTruthy env.GOOGLE_API_KEY then .ok ()
  else .error "GOOGLE_API_KEY required"

/-- Model of `HyperCogOrchestrator.__init__`
(src/hypercog_mcp/orchestrator.py, lines 25–44): after the staff agents
(which read no search credential), construct the four sub-agents in
source order — Perplexity (line 41), the two cognee agents (which read
no credential at construction), then FileSearch (line 44) — with no
exception handling around any of them. -/
def orchestratorInit (env : ProcEnv) : Except String Unit := do
  let _ ← perplexitySearchAgentInit env
  let _ ← .ok () -- CogneeKGAgent.__init__: sets a name only
  let _ ← .ok () -- CogneeVectorAgent.__init__: sets a name only
  let _ ← fileSearchAgentInit env
  pure ()

/-! ## Server input validation -/

/-- One entry of pydantic's `e.errors()` as surfaced by `call_tool`. -/
structure FieldError where
  field : String
  msg : String

/-- The `EnrichInput` pydantic model (src/hypercog_mcp/server.py,
lines 57–63): `task` constrained by `min_length=1, max_length=10000`,
`session_context` by `min_length=1` only.  All violated constraints
are collected, as pydantic does. -/
def validateEnrichInput (task session_context : String) :
    Except (List FieldError) Unit :=
  let errors :=
    (if task.length < 1 then
      [{ field := "task", msg := "String should have at least 1 character" }] else []) ++
    (if task.length > 10000 then
      [{ field := "task", msg := "String should have at most 10000 characters" }] else []) ++
    (if session_context.length < 1 then
      [{ field := "session_context",
         msg := "String should have at least 1 character" }] else [])
  if errors.isEmpty then .ok () else .error errors

/-- The structured terminal responses of `call_tool`. -/
inductive ToolResponse where
  | unknownTool (name : String) : ToolResponse
  | validationFailed (details : List FieldError) : ToolResponse
  | success (result : PipelineResult) : ToolResponse
  | enrichFailed (error : String) : ToolResponse

/-- Model of `call_tool` (src/hypercog_mcp/server.py, lines 120–200): reject
unknown tool names, validate the input (returning the
`status=failed` validation response with field details before any
pipeline stage runs), then run the orchestrator's `enrich`, mapping
any exception to a structured failure response.  `enrich` is the
orchestrator oracle — it is only ever applied after validation
succeeds. -/
def callTool (enrich : String → String → Except String PipelineResult)
    (name task session_context : String) : ToolResponse :=
  if name ≠ "hypercog_enrich" then .unknownTool name
  else
    match validateEnrichInput task session_context with
    | .error errs => .validationFailed errs
    | .ok _ =>
      match enrich task session_context with
      | .ok r => .success r
      | .error e => .enrichFailed e

/-! ## Concrete instances used by witnesses -/

/-- A Perplexity oracle that fails on the query `"a"` and succeeds
otherwise, together with a cognee oracle failing on `"b"`, used to
instantiate the batch-alignment theorem. -/
def pSearchC3 : String → Except String PerplexityAnswer := fun q =>
  if q = "a" then .error "boom" else .ok ⟨"ans", ["cite"]⟩

/-- Concrete cognee knowledge-graph oracle for the C3 witness. -/
def kSearchC3 : String → Except String String := fun q =>
  if q = "b" then .error "down" else .ok "kg-result"

/-- An optimizer oracle failing exactly on the description `"bad"`,
used to instantiate the subtask-fold theorem. -/
def optC8 : String → String → String → Except String Optimized := fun d _ _ =>
  if d = "bad" then .error "boom" else .ok ⟨[]⟩

/-- The three-subtask list for the C8 witness; the middle subtask
makes the optimizer fail. -/
def stsC8 : List Subtask :=
  [⟨"1", "n1", "good-one", "c1"⟩, ⟨"2", "n2", "bad", "c2"⟩, ⟨"3", "n3", "good-two", "c3"⟩]

/-- Orchestrator environment for the small-context case of the C1
witness: three-character context, five-token budget. -/
def envC1small : OrchestratorEnv :=
  { maxTokensPerTask := 5, countTokens := String.length,
    extract := .ok ("s1", "abc"), evaluateSufficient := .ok true,
    optimize := fun _ _ _ => .ok ⟨[]⟩, scrum := fun _ _ _ => .ok [],
    deepThink := fun _ _ => .ok ⟨[], [], [], []⟩,
    agents := ⟨fun _ => .ok [], fun _ => .ok [], fun _ => .ok [], fun _ => .ok []⟩,
    consolidate := fun _ _ _ => .ok ⟨"", none⟩ }

/-- Orchestrator environment for the oversized-context case of the C1
witness: eight-character context against the five-token budget, with
the scrum breakdown returning one subtask. -/
def envC1large : OrchestratorEnv :=
  { envC1small with
    extract := .ok ("s1", "abcdefgh")
    scrum := fun _ _ _ => .ok [⟨"1", "n1", "d1", "c1"⟩] }

/-- A 10001-character task string, violating `EnrichInput`'s
`max_length=10000` bound on `task`. -/
def longTaskC10 : String := String.mk (List.replicate 10001 'a')

/-- A 20000-character session context — longer than the task bound,
demonstrating that `session_context` has no upper bound. -/
def longCtxC10 : String := String.mk (List.replicate 20000 'c')

/-! ## Theorems -/

/-- C3: for every capability agent and every input list of query
strings, the batch search returns one result per input query with
`output[i].query = input[i]`; a failure on one query is converted into
a `success=false` element carrying the error description, and the
batch function is total (nothing raises past the batch boundary or
aborts the remaining queries).  Shown for the Perplexity and the
cognee knowledge-graph agents. -/
theorem c3_batch_query_alignment
    (pSearch : String → Except String PerplexityAnswer)
    (kSearch : String → Except String String) (queries : List String) :
    (perplexitySearchBatch pSearch queries).length = queries.length ∧
    (cogneeKGSearchBatch kSearch queries).length = queries.length ∧
    (∀ (i : ℕ) q, queries[i]? = some q →
      ∃ r, (perplexitySearchBatch pSearch queries)[i]? = some r ∧
        r.query = q ∧
        (∀ e, pSearch q = .error e →
          r.outcome = .error e ∧ r.success = false) ∧
        (∀ a, pSearch q = .ok a →
          r.outcome = .ok a.answer ∧ r.success = true)) ∧
    (∀ (i : ℕ) q, queries[i]? = some q →
      ∃ r, (cogneeKGSearchBatch kSearch queries)[i]? = some r ∧
        r.query = q ∧
        (∀ e, kSearch q = .error e →
          r.outcome = .error e ∧ r.success = false) ∧
        (∀ a, kSearch q = .ok a →
          r.outcome = .ok a ∧ r.success = true)) := by
  refine ⟨by simp [perplexitySearchBatch], by simp [cogneeKGSearchBatch], ?_, ?_⟩
  · intro i q hq
    cases hps : pSearch q with
    | ok a =>
      refine ⟨⟨q, "perplexity", .ok a.answer, a.citations⟩, ?_, rfl, ?_, ?_⟩
      · rw [perplexitySearchBatch, List.getElem?_map, hq, Option.map_some', hps]
      · intro e he; exact absurd he (by simp)
      · intro a' ha
        simp only [Except.ok.injEq] at ha; subst ha; exact ⟨rfl, rfl⟩
    | error e =>
      refine ⟨⟨q, "perplexity", .error e, []⟩, ?_, rfl, ?_, ?_⟩
      · rw [perplexitySearchBatch, List.getElem?_map, hq, Option.map_some', hps]
      · intro e' he
        simp only [Except.error.injEq] at he; subst he; exact ⟨rfl, rfl⟩
      · intro a ha; exact absurd ha (by simp)
  · intro i q hq
    cases hks : kSearch q with
    | ok a =>
      refine ⟨⟨q, "cognee_kg", .ok a, []⟩, ?_, rfl, ?_, ?_⟩
      · rw [cogneeKGSearchBatch, List.getElem?_map, hq, Option.map_some', hks]
      · intro e he; exact absurd he (by simp)
      · intro a' ha
        simp only [Except.ok.injEq] at ha; subst ha; exact ⟨rfl, rfl⟩
    | error e =>
      refine ⟨⟨q, "cognee_kg", .error e, []⟩, ?_, rfl, ?_, ?_⟩
      · rw [cogneeKGSearchBatch, List.getElem?_map, hq, Option.map_some', hks]
      · intro e' he
        simp only [Except.error.injEq] at he; subst he; exact ⟨rfl, rfl⟩
      · intro a ha; exact absurd ha (by simp)

/-- Witness for C3 at a concrete two-query batch with one failing
query per agent. -/
theorem c3_batch_query_alignment_witness :
    (perplexitySearchBatch pSearchC3 ["a", "b"]).length = 2 ∧
    (∃ r, (perplexitySearchBatch pSearchC3 ["a", "b"])[0]? = some r ∧
      r.query = "a" ∧ r.outcome = .error "boom" ∧ r.success = false) ∧
    (∃ r, (cogneeKGSearchBatch kSearchC3 ["a", "b"])[1]? = some r ∧
      r.query = "b" ∧ r.outcome = .error "down" ∧ r.success = false) := by
  obtain ⟨hplen, _, hp, hk⟩ := c3_batch_query_alignment pSearchC3 kSearchC3 ["a", "b"]
  refine ⟨hplen, ?_, ?_⟩
  · obtain ⟨r, hr, hq, herr, _⟩ := hp 0 "a" rfl
    obtain ⟨ho, hs⟩ := herr "boom" rfl
    exact ⟨r, hr, hq, ho, hs⟩
  · obtain ⟨r, hr, hq, herr, _⟩ := hk 1 "b" rfl
    obtain ⟨ho, hs⟩ := herr "down" rfl
    exact ⟨r, hr, hq, ho, hs⟩

/-- C4 (code bug): constructing the pipeline orchestrator with a
capability-agent credential absent does *not* degrade gracefully —
`HyperCogOrchestrator.__init__` constructs `PerplexitySearchAgent()`
and `FileSearchAgent()` with no exception handling, and each raises
`ValueError` when its key is unset, although `server.py` (lines
222–234) classifies both keys as optional ("Some features may be
disabled").  Evaluated at the two failing environments. -/
theorem c4_missing_credential_crashes_construction :
    orchestratorInit { PERPLEXITY_API_KEY := none, GOOGLE_API_KEY := some "gk" }
      = .error "PERPLEXITY_API_KEY not found in environment" ∧
    orchestratorInit { PERPLEXITY_API_KEY := some "pk", GOOGLE_API_KEY := none }
      = .error "GOOGLE_API_KEY required" ∧
    orchestratorInit { PERPLEXITY_API_KEY := some "pk", GOOGLE_API_KEY := some "gk" }
      = .ok () :=
  ⟨rfl, rfl, rfl⟩

/-- C5: the fan-out dispatch is failure-isolating: each agent with a
non-empty query list appears in the returned mapping bound to its
recovered batch — the full result list when its coroutine succeeded,
the empty list when it raised — and an agent's failure never removes
or perturbs a sibling's binding.  Stated as the exact lookup
characterization of the mapping for each of the four agents, plus the
recovery equations. -/
theorem c5_dispatch_failure_isolation (ag : AgentSet) (q : SearchQueries) :
    ((dispatchSubAgents ag q).lookup "perplexity" =
      if q.perplexity.isEmpty then none
      else some (recoverBatch (ag.perplexity q.perplexity))) ∧
    ((dispatchSubAgents ag q).lookup "file_search" =
      if q.file_search.isEmpty then none
      else some (recoverBatch (ag.file_search q.file_search))) ∧
    ((dispatchSubAgents ag q).lookup "cognee_kg" =
      if q.cognee_kg.isEmpty then none
      else some (recoverBatch (ag.cognee_kg q.cognee_kg))) ∧
    ((dispatchSubAgents ag q).lookup "cognee_vector" =
      if q.cognee_vector.isEmpty then none
      else some (recoverBatch (ag.cognee_vector q.cognee_vector))) ∧
    (∀ e, recoverBatch (.error e) = []) ∧
    (∀ rs, recoverBatch (.ok rs) = rs) := by
  refine ⟨?_, ?_, ?_, ?_, fun e => rfl, fun rs => rfl⟩ <;>
  · unfold dispatchSubAgents
    cases hp : q.perplexity.isEmpty <;> cases hf : q.file_search.isEmpty <;>
      cases hk : q.cognee_kg.isEmpty <;> cases hv : q.cognee_vector.isEmpty <;> rfl

/-- C9: when the optimizer's language-model response fails to parse as
JSON, `OptimizerAgent.execute` does not raise and returns the fallback
optimized context: zone 1 is the input task, zone 2 the unmodified
input context, zones 3 and 4 empty, and all token-count deltas zero. -/
theorem c9_optimizer_parse_fallback (task ctx raw : String) :
    ∃ fields, optimizerExecute task ctx (.malformed raw) = .ok fields ∧
      jlookup fields "optimized_context" = some (.jobj
        [("zone_1_task", .jstr task), ("zone_2_core", .jstr ctx),
         ("zone_3_supporting", .jstr ""), ("zone_4_gotchas", .jstr "")]) ∧
      jlookup fields "token_count" = some (.jobj
        [("original", .jnum 0), ("optimized", .jnum 0),
         ("reduction_percent", .jnum 0)]) ∧
      jlookup fields "optimizations_applied" = some (.jarr []) :=
  ⟨_, rfl, rfl, rfl, rfl⟩

/-- C8: per-subtask execution is an ordered fold — one result per
subtask in the input order, an optimizer failure on one subtask yields
a `status="failed"` element carrying that error while every subtask is
still processed (the fold is total and never aborts), and an optimizer
success yields a `status="ready_for_execution"` element. -/
theorem c8_execute_subtasks_ordered_fold
    (optimize : String → String → String → Except String Optimized)
    (subtasks : List Subtask) (session_id : String) :
    (executeSubtasks optimize subtasks session_id).length = subtasks.length ∧
    (∀ (i : ℕ) st, subtasks[i]? = some st →
      ∃ r, (executeSubtasks optimize subtasks session_id)[i]? = some r ∧
        r.subtask_id = st.id ∧ r.subtask_name = st.name ∧
        (∀ e, optimize st.description st.context
            (session_id ++ "_subtask_" ++ st.id) = .error e →
          r.outcome = .failed e ∧ r.outcome.status = "failed") ∧
        (∀ o, optimize st.description st.context
            (session_id ++ "_subtask_" ++ st.id) = .ok o →
          r.outcome = .ready o ∧ r.outcome.status = "ready_for_execution")) := by
  refine ⟨by simp [executeSubtasks], ?_⟩
  intro i st hst
  cases hopt : optimize st.description st.context (session_id ++ "_subtask_" ++ st.id) with
  | ok o =>
    refine ⟨⟨st.id, st.name, .ready o⟩, ?_, rfl, rfl, ?_, ?_⟩
    · rw [executeSubtasks, List.getElem?_map, hst, Option.map_some', hopt]
    · intro e he; exact absurd he (by simp)
    · intro o' ho
      simp only [Except.ok.injEq] at ho; subst ho; exact ⟨rfl, rfl⟩
  | error e =>
    refine ⟨⟨st.id, st.name, .failed e⟩, ?_, rfl, rfl, ?_, ?_⟩
    · rw [executeSubtasks, List.getElem?_map, hst, Option.map_some', hopt]
    · intro e' he
      simp only [Except.error.injEq] at he; subst he; exact ⟨rfl, rfl⟩
    · intro o ho; exact absurd ho (by simp)

/-- Witness for C8: on a concrete three-subtask list whose middle
subtask fails, the fold still yields three results, the middle one
`status="failed"` with the error, the last one still processed. -/
theorem c8_execute_subtasks_ordered_fold_witness :
    (executeSubtasks optC8 stsC8 "sid").length = 3 ∧
    (∃ r, (executeSubtasks optC8 stsC8 "sid")[1]? = some r ∧
      r.subtask_id = "2" ∧ r.outcome = .failed "boom" ∧
      r.outcome.status = "failed") ∧
    (∃ r, (executeSubtasks optC8 stsC8 "sid")[2]? = some r ∧
      r.subtask_id = "3" ∧ r.outcome.status = "ready_for_execution") := by
  obtain ⟨hlen, hidx⟩ := c8_execute_subtasks_ordered_fold optC8 stsC8 "sid"
  refine ⟨hlen, ?_, ?_⟩
  · obtain ⟨r, hr, hid, _, herr, _⟩ := hidx 1 ⟨"2", "n2", "bad", "c2"⟩ rfl
    obtain ⟨ho, hs⟩ := herr "boom" rfl
    exact ⟨r, hr, hid, ho, hs⟩
  · obtain ⟨r, hr, hid, _, _, hok⟩ := hidx 2 ⟨"3", "n3", "good-two", "c3"⟩ rfl
    obtain ⟨_, hs⟩ := hok ⟨[]⟩ rfl
    exact ⟨r, hr, hid, hs⟩

/-- C1: in an enrichment call whose evaluation verdict is sufficient,
the orchestrator branches on the token estimate against the configured
maximum: an estimate at most the maximum yields a
`ready_for_execution` result on path `sufficient_manageable` carrying
the single optimized context, while a larger estimate yields a
`subtasks_completed` result on path `sufficient_too_large_scrum` whose
payload is the list of per-subtask optimized results. -/
theorem c1_sufficient_branch (env : OrchestratorEnv) (task sid ctx : String)
    (hex : env.extract = .ok (sid, ctx))
    (hev : env.evaluateSufficient = .ok true) :
    (∀ o, env.countTokens ctx ≤ env.maxTokensPerTask →
      env.optimize task ctx sid = .ok o →
      enrichInternal env task = .ok
        { status := "ready_for_execution", session_id := sid,
          payload := .optimizedContext o, path := "sufficient_manageable" }) ∧
    (∀ subtasks, env.maxTokensPerTask < env.countTokens ctx →
      env.scrum task ctx "Context sufficient but too large for single execution"
        = .ok subtasks →
      enrichInternal env task = .ok
        { status := "subtasks_completed", session_id := sid,
          payload := .subtaskResults (executeSubtasks env.optimize subtasks sid),
          path := "sufficient_too_large_scrum" }) := by
  constructor
  · intro o hle hopt
    simp only [enrichInternal, hex, hev, Bind.bind, Except.bind, eq_self_iff_true,
      if_true]
    rw [if_pos hle, hopt]
    rfl
  · intro subtasks hgt hscrum
    simp only [enrichInternal, hex, hev, Bind.bind, Except.bind, eq_self_iff_true,
      if_true]
    rw [if_neg (Nat.not_le.mpr hgt), hscrum]
    rfl

/-- Witness for C1: both branches evaluated on concrete environments. -/
theorem c1_sufficient_branch_witness :
    enrichInternal envC1small "t" = .ok
      { status := "ready_for_execution", session_id := "s1",
        payload := .optimizedContext ⟨[]⟩, path := "sufficient_manageable" } ∧
    enrichInternal envC1large "t" = .ok
      { status := "subtasks_completed", session_id := "s1",
        payload := .subtaskResults
          (executeSubtasks envC1large.optimize [⟨"1", "n1", "d1", "c1"⟩] "s1"),
        path := "sufficient_too_large_scrum" } :=
  ⟨(c1_sufficient_branch envC1small "t" "s1" "abc" rfl rfl).1 ⟨[]⟩ (by decide) (by rfl),
   (c1_sufficient_branch envC1large "t" "s1" "abcdefgh" rfl rfl).2
     [⟨"1", "n1", "d1", "c1"⟩] (by decide) (by rfl)⟩

/-! ### Lookup lemmas for the evaluator's field defaulting -/

theorem jlookup_append_of_some {r : List (String × JVal)} {k : String} {v : JVal}
    (h : jlookup r k = some v) (s : List (String × JVal)) :
    jlookup (r ++ s) k = some v := by
  induction r with
  | nil => simp [jlookup] at h
  | cons hd tl ih =>
    obtain ⟨a, b⟩ := hd
    rw [jlookup] at h
    rw [List.cons_append, jlookup]
    split at h
    · rw [if_pos (by assumption)]; exact h
    · rw [if_neg (by assumption)]; exact ih h

theorem jlookup_append_of_none {r : List (String × JVal)} {k : String}
    (h : jlookup r k = none) (s : List (String × JVal)) :
    jlookup (r ++ s) k = jlookup s k := by
  induction r with
  | nil => simp
  | cons hd tl ih =>
    obtain ⟨a, b⟩ := hd
    rw [jlookup] at h
    rw [List.cons_append, jlookup]
    split at h
    · exact absurd h (by simp)
    · rw [if_neg (by assumption)]; exact ih h

theorem jlookup_defaultSufficient_some {r : List (String × JVal)} {k : String}
    {v : JVal} (h : jlookup r k = some v) :
    jlookup (defaultSufficient r) k = some v := by
  unfold defaultSufficient; split
  · exact jlookup_append_of_some h _
  · exact h

theorem jlookup_defaultConfidence_some {r : List (String × JVal)} {k : String}
    {v : JVal} (h : jlookup r k = some v) :
    jlookup (defaultConfidence r) k = some v := by
  unfold defaultConfidence; split
  · exact jlookup_append_of_some h _
  · exact h

theorem jlookup_aliasReasoning_some {r : List (String × JVal)} {k : String}
    {v : JVal} (h : jlookup r k = some v) :
    jlookup (aliasReasoning r) k = some v := by
  unfold aliasReasoning; split
  · split
    · exact jlookup_append_of_some h _
    · exact h
  · exact h

theorem jlookup_aliasMissingElements_some {r : List (String × JVal)} {k : String}
    {v : JVal} (h : jlookup r k = some v) :
    jlookup (aliasMissingElements r) k = some v := by
  unfold aliasMissingElements; split
  · split
    · exact jlookup_append_of_some h _
    · exact h
  · exact h

/-- Existing `sufficient` and `confidence` entries survive the whole
defaulting pass unchanged. -/
theorem jlookup_applyEvalDefaults_some {r : List (String × JVal)} {k : String}
    {v : JVal} (h : jlookup r k = some v) :
    jlookup (applyEvalDefaults r) k = some v :=
  jlookup_aliasMissingElements_some (jlookup_aliasReasoning_some
    (jlookup_defaultConfidence_some (jlookup_defaultSufficient_some h)))

theorem jlookup_defaultSufficient_filled {r : List (String × JVal)}
    (h : jlookup r "sufficient" = none) :
    jlookup (defaultSufficient r) "sufficient" = some (.jbool false) := by
  unfold defaultSufficient
  rw [if_pos (by simp [h]), jlookup_append_of_none h]
  rfl

theorem jlookup_defaultSufficient_confidence {r : List (String × JVal)}
    (h : jlookup r "confidence" = none) :
    jlookup (defaultSufficient r) "confidence" = none := by
  unfold defaultSufficient; split
  · rw [jlookup_append_of_none h]; rfl
  · exact h

theorem jlookup_defaultConfidence_filled {r : List (String × JVal)}
    (h : jlookup r "confidence" = none) :
    jlookup (defaultConfidence r) "confidence" = some (.jnum (3/10)) := by
  unfold defaultConfidence
  rw [if_pos (by simp [h]), jlookup_append_of_none h]
  rfl

/-! ### C2 -/

/-- C2 counterexample: a static-assessment response that parses to
`{"sufficient": true, "confidence": 0}` is emitted by the Evaluator
unchanged on the no-live-validation path — `sufficient=true` with
confidence 0, which exceeds no positive threshold (in particular not
the 0.3 used as the conservative parse-failure default).  No
confidence floor exists on the parsed path. -/
theorem c2_low_confidence_sufficient_emitted :
    evaluate
      { staticResponse :=
          .parsed (.jobj [("sufficient", .jbool true), ("confidence", .jnum 0)]),
        perplexityAvailable := false, validationOutcome := .ok (),
        synthesisResponse := .malformed "" } false
      = .ok [("sufficient", .jbool true), ("confidence", .jnum 0)] ∧
    jlookup [("sufficient", .jbool true), ("confidence", .jnum 0)] "sufficient"
      = some (.jbool true) ∧
    jlookup [("sufficient", .jbool true), ("confidence", .jnum 0)] "confidence"
      = some (.jnum 0) ∧
    ¬ ((0 : ℚ) > 3/10) :=
  ⟨rfl, rfl, rfl, by norm_num⟩

/-- C2 (amended): the conservative bias is enforced only by the
parse-failure default — a response that fails to parse yields
`sufficient=false`, `confidence=0.3`, but a successfully parsed static
verdict is passed through with its `sufficient` and `confidence`
values unchanged, with no threshold check, so a low-confidence
`sufficient=true` from upstream is emitted as-is. -/
theorem c2_static_verdict_passthrough (pa : Bool) (vo : Except String Unit)
    (sr : LLMOutput) :
    (∀ raw, evaluate ⟨.malformed raw, pa, vo, sr⟩ false
        = .ok evalParseFailureDefault ∧
      jlookup evalParseFailureDefault "sufficient" = some (.jbool false) ∧
      jlookup evalParseFailureDefault "confidence" = some (.jnum (3/10))) ∧
    (∀ fields, evaluate ⟨.parsed (.jobj fields), pa, vo, sr⟩ false
        = .ok (applyEvalDefaults fields)) ∧
    (∀ fields v, jlookup fields "sufficient" = some v →
      jlookup (applyEvalDefaults fields) "sufficient" = some v) ∧
    (∀ fields v, jlookup fields "confidence" = some v →
      jlookup (applyEvalDefaults fields) "confidence" = some v) := by
  refine ⟨fun raw => ⟨rfl, rfl, rfl⟩, fun fields => rfl, ?_, ?_⟩
  · intro fields v h; exact jlookup_applyEvalDefaults_some h
  · intro fields v h; exact jlookup_applyEvalDefaults_some h

/-- Witness for the amended C2 at a parsed verdict carrying
`sufficient=true, confidence=0.9`: both values are passed through. -/
theorem c2_static_verdict_passthrough_witness :
    evaluate
      { staticResponse :=
          .parsed (.jobj [("sufficient", .jbool true), ("confidence", .jnum (9/10))]),
        perplexityAvailable := false, validationOutcome := .ok (),
        synthesisResponse := .malformed "" } false
      = .ok (applyEvalDefaults
          [("sufficient", .jbool true), ("confidence", .jnum (9/10))]) ∧
    jlookup (applyEvalDefaults
        [("sufficient", .jbool true), ("confidence", .jnum (9/10))]) "sufficient"
      = some (.jbool true) ∧
    jlookup (applyEvalDefaults
        [("sufficient", .jbool true), ("confidence", .jnum (9/10))]) "confidence"
      = some (.jnum (9/10)) := by
  obtain ⟨-, hp, hs, hc⟩ :=
    c2_static_verdict_passthrough false (.ok ()) (.malformed "")
  exact ⟨hp _, hs _ (.jbool true) rfl, hc _ (.jnum (9/10)) rfl⟩

/-! ### C6 -/

/-- C6 counterexample: the response `"[]"` parses (so `json.loads`
does not raise) and is missing the `sufficient` and `confidence`
fields, yet the Evaluator does not fill in the defaults —
`result["sufficient"] = False` on a list raises a `TypeError`, which
only the `JSONDecodeError` handler could have caught, so the parse
raises instead of returning a defaulted verdict. -/
theorem c6_non_object_response_raises :
    parseEvaluationResponse (.parsed (.jarr [])) = .error "TypeError" ∧
    evaluate
      { staticResponse := .parsed (.jarr []), perplexityAvailable := false,
        validationOutcome := .ok (), synthesisResponse := .malformed "" } false
      = .error "TypeError" :=
  ⟨rfl, rfl⟩

/-- C6 (amended): for every response whose JSON parsing fails
outright, the Evaluator does not raise and returns the documented safe
defaults `sufficient=false`, `confidence=0.3`; for every response
parsing to a JSON *object*, a missing `sufficient` or `confidence`
field is filled with those same defaults (a response parsing to a
non-object JSON value instead raises a `TypeError`, which is not
recovered). -/
theorem c6_parse_failure_defaults :
    (∀ raw, parseEvaluationResponse (.malformed raw) = .ok evalParseFailureDefault) ∧
    jlookup evalParseFailureDefault "sufficient" = some (.jbool false) ∧
    jlookup evalParseFailureDefault "confidence" = some (.jnum (3/10)) ∧
    (∀ fields, parseEvaluationResponse (.parsed (.jobj fields))
      = .ok (applyEvalDefaults fields)) ∧
    (∀ fields, jlookup fields "sufficient" = none →
      jlookup (applyEvalDefaults fields) "sufficient" = some (.jbool false)) ∧
    (∀ fields, jlookup fields "confidence" = none →
      jlookup (applyEvalDefaults fields) "confidence" = some (.jnum (3/10))) := by
  refine ⟨fun raw => rfl, rfl, rfl, fun fields => rfl, ?_, ?_⟩
  · intro fields h
    exact jlookup_aliasMissingElements_some (jlookup_aliasReasoning_some
      (jlookup_defaultConfidence_some (jlookup_defaultSufficient_filled h)))
  · intro fields hc
    exact jlookup_aliasMissingElements_some (jlookup_aliasReasoning_some
      (jlookup_defaultConfidence_filled
        (jlookup_defaultSufficient_confidence hc)))

/-- Witness for the amended C6: at the empty parsed object both
defaults are filled in, and at an object carrying `sufficient=true`
but no `confidence` the confidence default is still filled in. -/
theorem c6_parse_failure_defaults_witness :
    parseEvaluationResponse (.parsed (.jobj [])) = .ok (applyEvalDefaults []) ∧
    jlookup (applyEvalDefaults []) "sufficient" = some (.jbool false) ∧
    jlookup (applyEvalDefaults []) "confidence" = some (.jnum (3/10)) ∧
    jlookup (applyEvalDefaults [("sufficient", .jbool true)]) "confidence"
      = some (.jnum (3/10)) := by
  obtain ⟨-, -, -, hp, hs, hc⟩ := c6_parse_failure_defaults
  exact ⟨hp [], hs [] rfl, hc [] rfl, hc [("sufficient", .jbool true)] rfl⟩

/-! ### C7 -/

theorem contains_eq_false_iff (l : List String) (a : String) :
    l.contains a = false ↔ a ∉ l := by
  constructor
  · intro h hm
    rw [← List.elem_iff] at hm
    simp only [List.contains] at h
    rw [h] at hm
    exact Bool.false_ne_true hm
  · intro h
    cases hc : l.contains a with
    | false => rfl
    | true =>
      have hm : a ∈ l := by
        rw [← List.elem_iff]
        simpa [List.contains] using hc
      exact absurd hm h

/-- C7: the gaps collected from all rounds are deduplicated by exact
string equality and partitioned into critical / important /
supplementary: the three classes are duplicate-free, their union is
exactly the collected gap set, and each gap lands in exactly the one
class determined by checking the critical keyword set first, then the
important keyword set, with the remainder supplementary. -/
theorem c7_gap_dedup_partition (iterationGaps : List (List String)) :
    (synthesizeGaps iterationGaps).critical.Nodup ∧
    (synthesizeGaps iterationGaps).important.Nodup ∧
    (synthesizeGaps iterationGaps).supplementary.Nodup ∧
    (∀ g, (g ∈ (synthesizeGaps iterationGaps).critical ∨
           g ∈ (synthesizeGaps iterationGaps).important ∨
           g ∈ (synthesizeGaps iterationGaps).supplementary) ↔
          g ∈ iterationGaps.flatMap id) ∧
    (∀ g, g ∈ iterationGaps.flatMap id →
      (critMatch g = true →
        g ∈ (synthesizeGaps iterationGaps).critical ∧
        g ∉ (synthesizeGaps iterationGaps).important ∧
        g ∉ (synthesizeGaps iterationGaps).supplementary) ∧
      (critMatch g = false → impMatch g = true →
        g ∉ (synthesizeGaps iterationGaps).critical ∧
        g ∈ (synthesizeGaps iterationGaps).important ∧
        g ∉ (synthesizeGaps iterationGaps).supplementary) ∧
      (critMatch g = false → impMatch g = false →
        g ∉ (synthesizeGaps iterationGaps).critical ∧
        g ∉ (synthesizeGaps iterationGaps).important ∧
        g ∈ (synthesizeGaps iterationGaps).supplementary)) := by
  have hcrit : ∀ g, g ∈ (synthesizeGaps iterationGaps).critical ↔
      (g ∈ (iterationGaps.flatMap id).dedup ∧ critMatch g = true) :=
    fun g => List.mem_filter
  have himp : ∀ g, g ∈ (synthesizeGaps iterationGaps).important ↔
      (g ∈ (iterationGaps.flatMap id).dedup ∧
        g ∉ (synthesizeGaps iterationGaps).critical ∧ impMatch g = true) := by
    intro g
    have h0 : g ∈ (synthesizeGaps iterationGaps).important ↔
        (g ∈ (iterationGaps.flatMap id).dedup ∧
          (!(synthesizeGaps iterationGaps).critical.contains g && impMatch g)
            = true) :=
      List.mem_filter
    rw [h0]
    simp only [Bool.and_eq_true, Bool.not_eq_true']
    constructor
    · rintro ⟨hU, hnc, hi⟩
      exact ⟨hU, (contains_eq_false_iff _ _).mp hnc, hi⟩
    · rintro ⟨hU, hnc, hi⟩
      exact ⟨hU, (contains_eq_false_iff _ _).mpr hnc, hi⟩
  have hsupp : ∀ g, g ∈ (synthesizeGaps iterationGaps).supplementary ↔
      (g ∈ (iterationGaps.flatMap id).dedup ∧
        g ∉ (synthesizeGaps iterationGaps).critical ∧
        g ∉ (synthesizeGaps iterationGaps).important) := by
    intro g
    have h0 : g ∈ (synthesizeGaps iterationGaps).supplementary ↔
        (g ∈ (iterationGaps.flatMap id).dedup ∧
          (!(synthesizeGaps iterationGaps).critical.contains g &&
            !(synthesizeGaps iterationGaps).important.contains g) = true) :=
      List.mem_filter
    rw [h0]
    simp only [Bool.and_eq_true, Bool.not_eq_true']
    constructor
    · rintro ⟨hU, hnc, hni⟩
      exact ⟨hU, (contains_eq_false_iff _ _).mp hnc,
        (contains_eq_false_iff _ _).mp hni⟩
    · rintro ⟨hU, hnc, hni⟩
      exact ⟨hU, (contains_eq_false_iff _ _).mpr hnc,
        (contains_eq_false_iff _ _).mpr hni⟩
  have hnodupU : (iterationGaps.flatMap id).dedup.Nodup := List.nodup_dedup _
  refine ⟨?_, ?_, ?_, ?_, ?_⟩
  · exact hnodupU.filter _
  · exact hnodupU.filter _
  · exact hnodupU.filter _
  · intro g
    constructor
    · rintro (h | h | h)
      · exact List.mem_dedup.mp ((hcrit g).mp h).1
      · exact List.mem_dedup.mp ((himp g).mp h).1
      · exact List.mem_dedup.mp ((hsupp g).mp h).1
    · intro h
      have hU : g ∈ (iterationGaps.flatMap id).dedup := List.mem_dedup.mpr h
      by_cases hc : critMatch g = true
      · exact Or.inl ((hcrit g).mpr ⟨hU, hc⟩)
      · have hc' : g ∉ (synthesizeGaps iterationGaps).critical := fun hmem =>
          hc ((hcrit g).mp hmem).2
        by_cases hi : impMatch g = true
        · exact Or.inr (Or.inl ((himp g).mpr ⟨hU, hc', hi⟩))
        · have hi' : g ∉ (synthesizeGaps iterationGaps).important := fun hmem =>
            hi ((himp g).mp hmem).2.2
          exact Or.inr (Or.inr ((hsupp g).mpr ⟨hU, hc', hi'⟩))
  · intro g h
    have hU : g ∈ (iterationGaps.flatMap id).dedup := List.mem_dedup.mpr h
    refine ⟨?_, ?_, ?_⟩
    · intro hc
      have hmc : g ∈ (synthesizeGaps iterationGaps).critical := (hcrit g).mpr ⟨hU, hc⟩
      refine ⟨hmc, ?_, ?_⟩
      · intro hmem; exact absurd hmc ((himp g).mp hmem).2.1
      · intro hmem; exact absurd hmc ((hsupp g).mp hmem).2.1
    · intro hc hi
      have hc' : g ∉ (synthesizeGaps iterationGaps).critical := fun hmem => by
        have := ((hcrit g).mp hmem).2; rw [hc] at this; exact Bool.false_ne_true this
      have hmi : g ∈ (synthesizeGaps iterationGaps).important :=
        (himp g).mpr ⟨hU, hc', hi⟩
      refine ⟨hc', hmi, ?_⟩
      · intro hmem; exact absurd hmi ((hsupp g).mp hmem).2.2
    · intro hc hi
      have hc' : g ∉ (synthesizeGaps iterationGaps).critical := fun hmem => by
        have := ((hcrit g).mp hmem).2; rw [hc] at this; exact Bool.false_ne_true this
      have hi' : g ∉ (synthesizeGaps iterationGaps).important := fun hmem => by
        have := ((himp g).mp hmem).2.2; rw [hi] at this; exact Bool.false_ne_true this
      exact ⟨hc', hi', (hsupp g).mpr ⟨hU, hc', hi'⟩⟩

/-- Witness for C7 on a concrete two-round gap list with a duplicate:
the duplicated critical gap appears once in `critical`, the
"should"-gap lands in `important`, the plain gap in `supplementary`. -/
theorem c7_gap_dedup_partition_witness :
    ("Must define retry policy" ∈
        (synthesizeGaps [["Must define retry policy", "Should log attempts"],
          ["Must define retry policy", "misc note"]]).critical ∧
      "Must define retry policy" ∉
        (synthesizeGaps [["Must define retry policy", "Should log attempts"],
          ["Must define retry policy", "misc note"]]).important) ∧
    "Should log attempts" ∈
      (synthesizeGaps [["Must define retry policy", "Should log attempts"],
        ["Must define retry policy", "misc note"]]).important ∧
    "misc note" ∈
      (synthesizeGaps [["Must define retry policy", "Should log attempts"],
        ["Must define retry policy", "misc note"]]).supplementary := by
  obtain ⟨-, -, -, -, hcls⟩ := c7_gap_dedup_partition
    [["Must define retry policy", "Should log attempts"],
     ["Must define retry policy", "misc note"]]
  refine ⟨?_, ?_, ?_⟩
  · obtain ⟨h1, h2, -⟩ := (hcls "Must define retry policy" (by decide)).1 (by decide)
    exact ⟨h1, h2⟩
  · exact ((hcls "Should log attempts" (by decide)).2.1 (by decide) (by decide)).2.1
  · exact ((hcls "misc note" (by decide)).2.2 (by decide) (by decide)).2.2

/-! ### C10 -/

/-- C10: the inbound enrich operation enforces an upper bound on the
task length — a task longer than 10000 characters is rejected with a
structured validation-error response naming the `task` field, before
the pipeline runs (the response is independent of the enrichment
oracle) — while `session_context` has only the non-empty lower bound
and no upper bound. -/
theorem c10_task_length_upper_bound
    (enrich : String → String → Except String PipelineResult)
    (task ctx : String) :
    (task.length > 10000 →
      ∃ errs,
        (∀ enr : String → String → Except String PipelineResult,
          callTool enr "hypercog_enrich" task ctx = .validationFailed errs) ∧
        ∃ fe, fe ∈ errs ∧ fe.field = "task") ∧
    (1 ≤ task.length → task.length ≤ 10000 → 1 ≤ ctx.length →
      validateEnrichInput task ctx = .ok () ∧
      callTool enrich "hypercog_enrich" task ctx =
        (match enrich task ctx with
         | .ok r => .success r
         | .error e => .enrichFailed e)) := by
  constructor
  · intro h
    have h1 : ¬ task.length < 1 := by omega
    refine ⟨⟨"task", "String should have at most 10000 characters"⟩ ::
        (if ctx.length < 1 then
          [⟨"session_context", "String should have at least 1 character"⟩] else []),
      ?_, ⟨_, List.mem_cons_self _ _, rfl⟩⟩
    intro enr
    unfold callTool validateEnrichInput
    rw [if_neg (by simp), if_neg h1, if_pos h]
    simp only [List.nil_append, List.cons_append, List.isEmpty_cons]
    rfl
  · intro h1 h2 h3
    have e1 : ¬ task.length < 1 := by omega
    have e2 : ¬ task.length > 10000 := by omega
    have e3 : ¬ ctx.length < 1 := by omega
    constructor
    · unfold validateEnrichInput
      rw [if_neg e1, if_neg e2, if_neg e3]
      rfl
    · unfold callTool validateEnrichInput
      rw [if_neg (by simp), if_neg e1, if_neg e2, if_neg e3]
      rfl

/-- Witness for C10: a concrete 10001-character task is rejected with
a `task` field error regardless of the enrichment oracle, while a
one-character task with a 20000-character session context passes
validation. -/
theorem c10_task_length_upper_bound_witness :
    (∃ errs,
      (∀ enr : String → String → Except String PipelineResult,
        callTool enr "hypercog_enrich" longTaskC10 "ctx" = .validationFailed errs) ∧
      ∃ fe, fe ∈ errs ∧ fe.field = "task") ∧
    validateEnrichInput "t" longCtxC10 = .ok () := by
  constructor
  · refine (c10_task_length_upper_bound (fun _ _ => .error "") longTaskC10 "ctx").1 ?_
    show (List.replicate 10001 'a').length > 10000
    rw [List.length_replicate]
    norm_num
  · refine ((c10_task_length_upper_bound (fun _ _ => .error "") "t" longCtxC10).2
      (by decide) (by decide) ?_).1
    show 1 ≤ (List.replicate 20000 'c').length
    rw [List.length_replicate]
    norm_num

end HyperCog
